import Mathlib

/-!
# Verification of the Trino MCP server's request-dispatch core

Shallow embedding of `app/mcp/mcp_server_trino.py`: the three
connection-using entry points `list_resources`, `read_resource` and
`call_tool`.

Modelling choices:

* The Trino engine (DB-API `connect` → `cursor` → `execute` → `fetchall`)
  is an external collaborator.  It is modelled as a function
  `Engine : String → ExecOutcome`: for a submitted statement it either
  raises (`ExecOutcome.err`, covering `TrinoQueryError` and
  `TrinoExternalError`) or succeeds with the cursor description (column
  names) and a `FetchOutcome` describing what a subsequent `fetchall()`
  would do (return rows, or raise).  `trino.dbapi.connect` itself is lazy
  (builds a handle, no network I/O), so opening a connection never raises
  in the model, matching the library.
* Python cell values are `PyVal`; Python's `str()` is `PyVal.str`
  (`map(str, row)` in the source).
* Python exceptions that the handlers raise are `PyError`; a handler's
  result is `Except PyError α`.  The spec's `ValidationError` /
  `MissingArgumentError` correspond to the source's `ValueError`, its
  surfaced runtime failure to `RuntimeError`.
* Resource-lifecycle side effects are recorded in a `Trace`: how many
  times the request's connection was opened and closed, and which
  statements were submitted to the engine, in order.
* The configuration (`get_db_config`) is taken as an already-resolved
  pair `catalog`, `schema` passed to each handler, as each handler only
  uses those two fields; config resolution itself is not under test here.
* Python string operations are embedded over `List Char`:
  `str.strip` / `str.upper` / `str.startswith` / `str.split` become
  `pyStrip` / `Char.toUpper`-mapping / `List.isPrefixOf` / `pySplit`
  (ASCII-faithful, which covers every keyword comparison the source
  performs).
-/

/-- A Python value appearing in a result row; `PyVal.str` is Python's
`str()` as applied by `map(str, row)` in the source. -/
inductive PyVal where
  | vStr : String → PyVal
  | vInt : Int → PyVal
deriving DecidableEq, Repr

def PyVal.str : PyVal → String
  | PyVal.vStr s => s
  | PyVal.vInt n => toString n

/-- `TrinoQueryError` / `TrinoExternalError` — the two engine exception
classes the source catches.  `msg` is Python's `str(e)`. -/
inductive TrinoError where
  | query : String → TrinoError
  | external : String → TrinoError
deriving DecidableEq, Repr

def TrinoError.msg : TrinoError → String
  | TrinoError.query m => m
  | TrinoError.external m => m

/-- What `cursor.fetchall()` does after a successful `execute`. -/
inductive FetchOutcome where
  | ok : List (List PyVal) → FetchOutcome
  | err : TrinoError → FetchOutcome
deriving DecidableEq, Repr

/-- Outcome of submitting one statement via `cursor.execute`:
either the engine raises, or the statement succeeds with the cursor
`description` (column names) and the behaviour of a later fetch. -/
inductive ExecOutcome where
  | ok : List String → FetchOutcome → ExecOutcome
  | err : TrinoError → ExecOutcome
deriving DecidableEq, Repr

/-- The engine as seen through one connection: statement ↦ outcome. -/
def Engine : Type := String → ExecOutcome

/-- Python exceptions raised (and not caught) by the handlers. -/
inductive PyError where
  | valueError : String → PyError
  | runtimeError : String → PyError
deriving DecidableEq, Repr

/-- `mcp.types.TextContent(type="text", text=...)`. -/
structure TextContent where
  text : String
deriving DecidableEq, Repr

/-- `mcp.types.Resource` as constructed by `list_resources`. -/
structure Resource where
  uri : String
  name : String
  mimeType : String
  description : String
deriving DecidableEq, Repr

/-- Side-effect record of one handler invocation: connection opens and
closes, and the statements submitted to the engine, in order. -/
structure Trace where
  opens : Nat
  closes : Nat
  executed : List String
deriving DecidableEq, Repr

def Trace.empty : Trace := { opens := 0, closes := 0, executed := [] }

/-- Python `str.strip()` (ASCII whitespace). -/
def pyStrip (l : List Char) : List Char :=
  ((l.dropWhile Char.isWhitespace).reverse.dropWhile Char.isWhitespace).reverse

/-- `query.strip().upper()` from the source, as a character list. -/
def stripUpper (q : String) : List Char :=
  (pyStrip q.data).map Char.toUpper

/-- Python `str.startswith` on character lists. -/
def startsWithL (p l : List Char) : Bool :=
  List.isPrefixOf p l

/-- Python `str.split(sep)` for a one-character separator:
`pySplit c [] = [[]]` just as `"".split(c) == [""]`. -/
def pySplit (sep : Char) : List Char → List (List Char)
  | [] => [[]]
  | a :: rest =>
      let r := pySplit sep rest
      if a = sep then [] :: r else (a :: r.headD []) :: r.tail

/-- Python `dict.get` over an association list (keys unique in a dict;
first match). -/
def dictGet (args : List (String × String)) (k : String) : Option String :=
  match args with
  | [] => none
  | (k2, v) :: rest => if k2 = k then some v else dictGet rest k

/-- The leading keyword of a statement as the spec's claims word it:
trim surrounding whitespace, take the first whitespace-delimited token,
uppercase it for case-insensitive comparison.  This is the claim-side
notion, to be compared with the source's prefix tests. -/
def specLeadingKeyword (q : String) : List Char :=
  ((pyStrip q.data).takeWhile (fun c => !c.isWhitespace)).map Char.toUpper

/-- The first path segment after the scheme, as the claims describe it:
the substring of the remainder up to the first `/`. -/
def firstSegment (rest : String) : String :=
  String.mk (rest.data.takeWhile (fun c => c ≠ '/'))

/-- `call_tool(name, arguments)` from the source.

```python
if name != "execute_sql": raise ValueError(f"Unknown tool: {name}")
query = arguments.get("query")
if not query: raise ValueError("Query is required")
try:
    conn = create_trino_connection(); cursor = conn.cursor()
    cursor.execute(query)
    if query.strip().upper().startswith("SHOW "):
        rows = cursor.fetchall()
        result = ["\t".join(map(str, row)) for row in rows]
        cursor.close(); conn.close()
        return [TextContent(type="text", text="\n".join(result))]
    elif query.strip().upper().startswith("SELECT"):
        columns = [desc[0] for desc in cursor.description]
        rows = cursor.fetchall()
        result_lines = [",".join(map(str, row)) for row in rows]
        header_line = ",".join(columns)
        cursor.close(); conn.close()
        return [TextContent(type="text", text="\n".join([header_line] + result_lines))]
    else:
        cursor.close(); conn.close()
        return [TextContent(type="text", text="Query executed successfully.")]
except (TrinoQueryError, TrinoExternalError) as e:
    return [TextContent(type="text", text=f"Error executing query: {str(e)}")]
```

Note the `except` handler returns without `conn.close()`: the trace of
every caught-failure path records `closes := 0`. -/
def call_tool (eng : Engine) (name : String) (arguments : List (String × String)) :
    Except PyError (List TextContent) × Trace :=
  if name ≠ "execute_sql" then
    (Except.error (PyError.valueError ("Unknown tool: " ++ name)), Trace.empty)
  else
    match dictGet arguments "query" with
    | none => (Except.error (PyError.valueError "Query is required"), Trace.empty)
    | some query =>
      if query = "" then
        (Except.error (PyError.valueError "Query is required"), Trace.empty)
      else
        match eng query with
        | ExecOutcome.err e =>
            (Except.ok [TextContent.mk ("Error executing query: " ++ e.msg)],
             { opens := 1, closes := 0, executed := [query] })
        | ExecOutcome.ok description fetch =>
            if startsWithL "SHOW ".data (stripUpper query) then
              match fetch with
              | FetchOutcome.err e =>
                  (Except.ok [TextContent.mk ("Error executing query: " ++ e.msg)],
                   { opens := 1, closes := 0, executed := [query] })
              | FetchOutcome.ok rows =>
                  (Except.ok [TextContent.mk (String.intercalate "\n"
                      (rows.map (fun row => String.intercalate "\t" (row.map PyVal.str))))],
                   { opens := 1, closes := 1, executed := [query] })
            else if startsWithL "SELECT".data (stripUpper query) then
              match fetch with
              | FetchOutcome.err e =>
                  (Except.ok [TextContent.mk ("Error executing query: " ++ e.msg)],
                   { opens := 1, closes := 0, executed := [query] })
              | FetchOutcome.ok rows =>
                  (Except.ok [TextContent.mk (String.intercalate "\n"
                      (String.intercalate "," description
                        :: rows.map (fun row => String.intercalate "," (row.map PyVal.str))))],
                   { opens := 1, closes := 1, executed := [query] })
            else
              (Except.ok [TextContent.mk "Query executed successfully."],
               { opens := 1, closes := 1, executed := [query] })

/-- `read_resource(uri)` from the source.

```python
if not uri_str.startswith("trino://"): raise ValueError(f"Invalid URI scheme: {uri_str}")
parts = uri_str[8:].split('/'); table = parts[0]
try:
    conn = create_trino_connection(); cursor = conn.cursor()
    query = f"SELECT * FROM {catalog}.{schema}.{table} LIMIT 100"
    cursor.execute(query)
    columns = [desc[0] for desc in cursor.description]
    rows = cursor.fetchall()
    result_lines = [",".join(map(str, row)) for row in rows]
    header_line = ",".join(columns)
    cursor.close(); conn.close()
    return "\n".join([header_line] + result_lines)
except (TrinoQueryError, TrinoExternalError) as e:
    raise RuntimeError(f"Database error: {str(e)}")
```

As in `call_tool`, the `except` path re-raises without closing the
connection. -/
def read_resource (eng : Engine) (catalog schema : String) (uri : String) :
    Except PyError String × Trace :=
  if !(startsWithL "trino://".data uri.data) then
    (Except.error (PyError.valueError ("Invalid URI scheme: " ++ uri)), Trace.empty)
  else
    let table : String := String.mk ((pySplit '/' (uri.data.drop 8)).headD [])
    let query := "SELECT * FROM " ++ catalog ++ "." ++ schema ++ "." ++ table ++ " LIMIT 100"
    match eng query with
    | ExecOutcome.err e =>
        (Except.error (PyError.runtimeError ("Database error: " ++ e.msg)),
         { opens := 1, closes := 0, executed := [query] })
    | ExecOutcome.ok description fetch =>
        match fetch with
        | FetchOutcome.err e =>
            (Except.error (PyError.runtimeError ("Database error: " ++ e.msg)),
             { opens := 1, closes := 0, executed := [query] })
        | FetchOutcome.ok rows =>
            (Except.ok (String.intercalate "\n"
                (String.intercalate "," description
                  :: rows.map (fun row => String.intercalate "," (row.map PyVal.str)))),
             { opens := 1, closes := 1, executed := [query] })

/-- One `Resource(uri=f"trino://{t}/data", name=f"Table: {t}", ...)`
as built in `list_resources`' loop (f-strings apply `str()`). -/
def trinoResource (t : PyVal) : Resource :=
  { uri := "trino://" ++ t.str ++ "/data"
    name := "Table: " ++ t.str
    mimeType := "text/plain"
    description := "Data in table: " ++ t.str }

/-- The `for (table_name,) in tables` loop of `list_resources`: each row
must unpack as a 1-tuple, otherwise Python raises a `ValueError` that the
handler does not catch. -/
def buildResources : List (List PyVal) → Except PyError (List Resource)
  | [] => Except.ok []
  | row :: rest =>
    match row with
    | [t] => (buildResources rest).map (fun rs => trinoResource t :: rs)
    | _ => Except.error (PyError.valueError "not enough values to unpack")

/-- `list_resources()` from the source.

```python
try:
    conn = create_trino_connection(); cursor = conn.cursor()
    cursor.execute(f"SHOW TABLES IN {catalog}.{schema}")
    tables = cursor.fetchall()
    resources = []
    for (table_name,) in tables:
        resources.append(Resource(uri=f"trino://{table_name}/data", ...))
    cursor.close(); conn.close()
    return resources
except (TrinoQueryError, TrinoExternalError) as e:
    return []
```
-/
def list_resources (eng : Engine) (catalog schema : String) :
    Except PyError (List Resource) × Trace :=
  let show_tables_sql := "SHOW TABLES IN " ++ catalog ++ "." ++ schema
  match eng show_tables_sql with
  | ExecOutcome.err _ =>
      (Except.ok [], { opens := 1, closes := 0, executed := [show_tables_sql] })
  | ExecOutcome.ok _ fetch =>
    match fetch with
    | FetchOutcome.err _ =>
        (Except.ok [], { opens := 1, closes := 0, executed := [show_tables_sql] })
    | FetchOutcome.ok tables =>
      match buildResources tables with
      | Except.error e =>
          (Except.error e, { opens := 1, closes := 0, executed := [show_tables_sql] })
      | Except.ok rs =>
          (Except.ok rs, { opens := 1, closes := 1, executed := [show_tables_sql] })

/-! ## Engine fixtures for witnesses and counterexamples -/

/-- Engine that fails every statement with a query-level error. -/
def engFailing : Engine := fun _ => ExecOutcome.err (TrinoError.query "syntax error")

/-- Engine returning two single-column rows, as `SHOW TABLES` would. -/
def engShowRows : Engine := fun _ =>
  ExecOutcome.ok [] (FetchOutcome.ok [[PyVal.vStr "t1"], [PyVal.vStr "t2"]])

/-- Engine returning columns `a`, `b` and rows `(1, "x")`, `(2, "y")`. -/
def engSelect : Engine := fun _ =>
  ExecOutcome.ok ["a", "b"]
    (FetchOutcome.ok [[PyVal.vInt 1, PyVal.vStr "x"], [PyVal.vInt 2, PyVal.vStr "y"]])

/-- Engine returning one column `x` and no rows. -/
def engSelectLike : Engine := fun _ => ExecOutcome.ok ["x"] (FetchOutcome.ok [])

/-- Engine whose statements succeed but whose fetch would raise. -/
def engFetchErr : Engine := fun _ =>
  ExecOutcome.ok [] (FetchOutcome.err (TrinoError.query "no rows available"))

/-- Engine for the `orders` sampling example. -/
def engOrders : Engine := fun _ =>
  ExecOutcome.ok ["id", "name"] (FetchOutcome.ok [[PyVal.vInt 1, PyVal.vStr "alice"]])

/-! ## Sanity checks of the embedded Python string primitives -/

example : pySplit '/' "orders/data".data = ["orders".data, "data".data] := by decide
example : pySplit '/' "".data = [[]] := by decide
example : stripUpper "  select 1 " = "SELECT 1".data := by decide
example : specLeadingKeyword " show tables " = "SHOW".data := by decide

/-! ## Helper lemmas -/

/-- The spec-side leading keyword is a prefix of the source-side
`strip().upper()` form of the statement. -/
theorem specLeadingKeyword_le_stripUpper (q : String) :
    specLeadingKeyword q <+: stripUpper q := by
  unfold specLeadingKeyword stripUpper
  exact List.IsPrefix.map Char.toUpper ( List.takeWhile_prefix _)

/-- A string whose uppercased form starts with `SELECT` cannot also start
with `SHOW ` (they differ at the second character). -/
theorem select_not_show (u : List Char) (h : "SELECT".data <+: u) :
    startsWithL "SHOW ".data u = false := by
  apply Bool.eq_false_iff.mpr
  intro hc
  unfold startsWithL at hc
  obtain ⟨t2, h2⟩ := List.isPrefixOf_iff_prefix.mp hc
  obtain ⟨t1, h1⟩ := h
  rw [← h1] at h2
  rw [show "SHOW ".data = ['S', 'H', 'O', 'W', ' '] from rfl,
     show "SELECT".data = ['S', 'E', 'L', 'E', 'C', 'T'] from rfl] at h2
  simp only [List.cons_append] at h2
  injection h2 with _ h2
  injection h2 with hHE _
  exact absurd hHE (by decide)

/-- Reassociation helper for fusing string literals. -/
theorem str_fuse (x a b c : String) (h : a ++ b = c) : x ++ a ++ b = x ++ c := by
  rw [String.append_assoc, h]

/-- The head of a Python `split` is the run of characters before the
first separator. -/
theorem pySplit_headD (sep : Char) (l : List Char) :
    (pySplit sep l).headD [] = l.takeWhile (fun a => a ≠ sep) := by
  induction l with
  | nil => rfl
  | cons a rest ih =>
    by_cases h : a = sep
    · subst h
      simp [pySplit, List.takeWhile_cons]
    · simp only [pySplit, if_neg h, List.headD_cons, List.takeWhile_cons]
      rw [if_pos (by simp [h])]
      exact congrArg (List.cons a) ih

/-- When the scheme test passes, the single statement submitted by
`read_resource` is the sampling query over the first path segment,
whatever the engine then does. -/
theorem read_resource_executed_of_scheme (eng : Engine) (catalog schema uri : String)
    (h : startsWithL "trino://".data uri.data = true) :
    (read_resource eng catalog schema uri).2.executed =
      ["SELECT * FROM " ++ catalog ++ "." ++ schema ++ "." ++
        String.mk ((pySplit '/' (uri.data.drop 8)).headD []) ++ " LIMIT 100"] := by
  simp only [read_resource, h, Bool.not_true]
  rw [if_neg Bool.false_ne_true]
  cases hE : eng ("SELECT * FROM " ++ catalog ++ "." ++ schema ++ "." ++
      String.mk ((pySplit '/' (uri.data.drop 8)).headD []) ++ " LIMIT 100") with
  | err e => simp [hE]
  | ok d fetch => cases fetch <;> simp [hE]

/-! ## Claim theorems -/

/-- C1 (code-bug evidence): on `call_tool`'s handled engine-failure path
the connection is opened but never closed — the textual error result is
returned with `closes = 0`, contradicting "closed exactly once before the
handler returns, on every exit path". -/
theorem call_tool_leaks_connection_on_engine_failure :
    (call_tool engFailing "execute_sql" [("query", "SELECT 1")]).2.opens = 1 ∧
    (call_tool engFailing "execute_sql" [("query", "SELECT 1")]).2.closes = 0 ∧
    (call_tool engFailing "execute_sql" [("query", "SELECT 1")]).1 =
      Except.ok [TextContent.mk "Error executing query: syntax error"] :=
  ⟨rfl, rfl, rfl⟩

/-- C3: if the engine raises a query-level or external error during
submission, or during fetch on a branch that fetches, `call_tool` with
tool name `execute_sql` and a non-empty query still returns a successful
response whose single text content is an error message carrying the
engine's original message. -/
theorem call_tool_engine_failure_text (eng : Engine) (args : List (String × String))
    (q : String) (e : TrinoError)
    (hq : dictGet args "query" = some q) (hne : q ≠ "")
    (h : eng q = ExecOutcome.err e ∨
         ∃ d, eng q = ExecOutcome.ok d (FetchOutcome.err e) ∧
           (startsWithL "SHOW ".data (stripUpper q) = true ∨
            startsWithL "SELECT".data (stripUpper q) = true)) :
    (call_tool eng "execute_sql" args).1 =
      Except.ok [TextContent.mk ("Error executing query: " ++ TrinoError.msg e)] := by
  rcases h with h | ⟨d, h, hb | hb⟩
  · simp [call_tool, hq, hne, h]
  · simp [call_tool, hq, hne, h, hb]
  · by_cases hs : startsWithL "SHOW ".data (stripUpper q) = true
    · simp [call_tool, hq, hne, h, hs]
    · simp [call_tool, hq, hne, h, hb, hs]

/-- Witness for C3 at a concrete failing engine and query. -/
theorem call_tool_engine_failure_text_witness :
    (call_tool engFailing "execute_sql" [("query", "SELECT * FROM missing")]).1 =
      Except.ok [TextContent.mk ("Error executing query: " ++
        TrinoError.msg (TrinoError.query "syntax error"))] :=
  call_tool_engine_failure_text engFailing _ "SELECT * FROM missing" _ rfl (by decide)
    (Or.inl rfl)

/-- C4: on any engine failure (at submission or at fetch) during table
enumeration, `list_resources` returns the empty resource list and raises
nothing. -/
theorem list_resources_engine_failure_empty (eng : Engine) (catalog schema : String)
    (h : (∃ e, eng ("SHOW TABLES IN " ++ catalog ++ "." ++ schema) = ExecOutcome.err e) ∨
         (∃ d e, eng ("SHOW TABLES IN " ++ catalog ++ "." ++ schema) =
            ExecOutcome.ok d (FetchOutcome.err e))) :
    (list_resources eng catalog schema).1 = Except.ok [] := by
  rcases h with ⟨e, h⟩ | ⟨d, e, h⟩ <;> simp [list_resources, h]

/-- Witness for C4 at a concrete failing engine. -/
theorem list_resources_engine_failure_empty_witness :
    (list_resources engFailing "c" "s").1 = Except.ok [] :=
  list_resources_engine_failure_empty engFailing "c" "s"
    (Or.inl ⟨TrinoError.query "syntax error", rfl⟩)

/-- C5: for every address not beginning with `trino://`, `read_resource`
fails with the validation `ValueError` before any engine call: the trace
is empty (no connection opened, no statement submitted). -/
theorem read_resource_invalid_scheme (eng : Engine) (catalog schema uri : String)
    (h : startsWithL "trino://".data uri.data = false) :
    read_resource eng catalog schema uri =
      (Except.error (PyError.valueError ("Invalid URI scheme: " ++ uri)), Trace.empty) := by
  simp [read_resource, h]

/-- Witness for C5 at the spec's example address `ftp://orders/data`. -/
theorem read_resource_invalid_scheme_witness :
    read_resource engFailing "c" "s" "ftp://orders/data" =
      (Except.error (PyError.valueError ("Invalid URI scheme: " ++ "ftp://orders/data")),
       Trace.empty) :=
  read_resource_invalid_scheme engFailing "c" "s" "ftp://orders/data" (by decide)

/-- C7: for every argument dictionary in which `query` is absent or bound
to the empty string, `call_tool "execute_sql"` fails with the
"Query is required" `ValueError` and the trace is empty — no connection
is opened. -/
theorem call_tool_missing_query (eng : Engine) (args : List (String × String))
    (h : dictGet args "query" = none ∨ dictGet args "query" = some "") :
    call_tool eng "execute_sql" args =
      (Except.error (PyError.valueError "Query is required"), Trace.empty) := by
  rcases h with h | h <;> simp [call_tool, h]

/-- Witness for C7 at the empty argument dictionary. -/
theorem call_tool_missing_query_witness :
    call_tool engFailing "execute_sql" [] =
      (Except.error (PyError.valueError "Query is required"), Trace.empty) :=
  call_tool_missing_query engFailing [] (Or.inl rfl)

/-- C2 counterexample: the bare statement `"show"` has leading keyword
`SHOW` (trimmed, case-insensitive), yet `call_tool` takes the fall-through
branch — the source tests `startswith("SHOW ")` with a trailing space —
and returns the fixed acknowledgement instead of the tab/newline-joined
rows `"t1\nt2"`. -/
theorem call_tool_show_keyword_counterexample :
    specLeadingKeyword "show" = "SHOW".data ∧
    (call_tool engShowRows "execute_sql" [("query", "show")]).1 =
      Except.ok [TextContent.mk "Query executed successfully."] ∧
    (call_tool engShowRows "execute_sql" [("query", "show")]).1 ≠
      Except.ok [TextContent.mk "t1\nt2"] := by
  refine ⟨by decide, rfl, ?_⟩
  intro hc
  have h1 : [TextContent.mk "Query executed successfully."] =
      [TextContent.mk "t1\nt2"] := by injection hc
  have h2 : TextContent.mk "Query executed successfully." =
      TextContent.mk "t1\nt2" := by injection h1
  have h3 : ("Query executed successfully." : String) = "t1\nt2" := by injection h2
  exact absurd h3 (by decide)

/-- C2 (amended): for every statement whose `strip().upper()` form starts
with the five characters `SHOW ` (keyword plus a space), `call_tool`
fetches all rows and returns one informational text: each row's fields
joined by a tab, rows joined by newlines, no header. -/
theorem call_tool_show_branch (eng : Engine) (args : List (String × String))
    (q : String) (d : List String) (rows : List (List PyVal))
    (hq : dictGet args "query" = some q) (hne : q ≠ "")
    (hshow : startsWithL "SHOW ".data (stripUpper q) = true)
    (heng : eng q = ExecOutcome.ok d (FetchOutcome.ok rows)) :
    (call_tool eng "execute_sql" args).1 =
      Except.ok [TextContent.mk (String.intercalate "\n"
        (rows.map (fun row => String.intercalate "\t" (row.map PyVal.str))))] := by
  simp [call_tool, hq, hne, heng, hshow]

/-- Witness for the amended C2: `"show tables"` over two one-column rows
yields exactly the spec's example text `"t1\nt2"`. -/
theorem call_tool_show_branch_witness :
    (call_tool engShowRows "execute_sql" [("query", "show tables")]).1 =
      Except.ok [TextContent.mk "t1\nt2"] := by
  have h := call_tool_show_branch engShowRows [("query", "show tables")] "show tables"
    [] [[PyVal.vStr "t1"], [PyVal.vStr "t2"]] rfl (by decide) (by decide) rfl
  exact h.trans (congrArg (fun s => Except.ok [TextContent.mk s]) (by decide))

/-- C8: for every statement whose trimmed, case-insensitive leading
keyword is `SELECT`, `call_tool` produces the tabular rendering: the
comma-joined column names, then one comma-joined line of stringified
cells per row, all joined by newlines. -/
theorem call_tool_select_keyword_tabular (eng : Engine) (args : List (String × String))
    (q : String) (cols : List String) (rows : List (List PyVal))
    (hq : dictGet args "query" = some q) (hne : q ≠ "")
    (hkw : specLeadingKeyword q = "SELECT".data)
    (heng : eng q = ExecOutcome.ok cols (FetchOutcome.ok rows)) :
    (call_tool eng "execute_sql" args).1 =
      Except.ok [TextContent.mk (String.intercalate "\n"
        (String.intercalate "," cols
          :: rows.map (fun row => String.intercalate "," (row.map PyVal.str))))] := by
  have hpre : "SELECT".data <+: stripUpper q := hkw ▸ specLeadingKeyword_le_stripUpper q
  have hsel : startsWithL "SELECT".data (stripUpper q) = true := by
    unfold startsWithL
    exact List.isPrefixOf_iff_prefix.mpr hpre
  have hshow : startsWithL "SHOW ".data (stripUpper q) = false := select_not_show _ hpre
  simp [call_tool, hq, hne, heng, hsel, hshow]

/-- Witness for C8: columns `[a,b]` and rows `[(1,"x"),(2,"y")]` yield
the spec's example text `"a,b\n1,x\n2,y"`. -/
theorem call_tool_select_keyword_tabular_witness :
    (call_tool engSelect "execute_sql" [("query", "select * from t")]).1 =
      Except.ok [TextContent.mk "a,b\n1,x\n2,y"] := by
  have h := call_tool_select_keyword_tabular engSelect [("query", "select * from t")]
    "select * from t" ["a", "b"]
    [[PyVal.vInt 1, PyVal.vStr "x"], [PyVal.vInt 2, PyVal.vStr "y"]]
    rfl (by decide) (by decide) rfl
  exact h.trans (congrArg (fun s => Except.ok [TextContent.mk s]) (by decide))

/-- C9 counterexample: `"SELECTIVE"` has leading keyword `SELECTIVE` —
neither `SHOW` nor `SELECT` — yet `call_tool` takes the SELECT branch
(the source tests the bare prefix `SELECT`), fetches from the cursor, and
returns the tabular header `"x"` instead of the fixed acknowledgement. -/
theorem call_tool_other_keyword_counterexample :
    specLeadingKeyword "SELECTIVE" ≠ "SHOW".data ∧
    specLeadingKeyword "SELECTIVE" ≠ "SELECT".data ∧
    (call_tool engSelectLike "execute_sql" [("query", "SELECTIVE")]).1 =
      Except.ok [TextContent.mk "x"] ∧
    (call_tool engSelectLike "execute_sql" [("query", "SELECTIVE")]).1 ≠
      Except.ok [TextContent.mk "Query executed successfully."] := by
  refine ⟨by decide, by decide, rfl, ?_⟩
  intro hc
  have h1 : [TextContent.mk "x"] =
      [TextContent.mk "Query executed successfully."] := by injection hc
  have h2 : TextContent.mk "x" =
      TextContent.mk "Query executed successfully." := by injection h1
  have h3 : ("x" : String) = "Query executed successfully." := by injection h2
  exact absurd h3 (by decide)

/-- C9 (amended): for every statement whose `strip().upper()` form starts
with neither `SHOW ` nor `SELECT`, `call_tool` returns the fixed
informational text `"Query executed successfully."` whatever the engine's
successful return value — including when a fetch would have raised, which
shows no rows are fetched on this branch. -/
theorem call_tool_other_branch (eng : Engine) (args : List (String × String))
    (q : String) (d : List String) (fo : FetchOutcome)
    (hq : dictGet args "query" = some q) (hne : q ≠ "")
    (hshow : startsWithL "SHOW ".data (stripUpper q) = false)
    (hsel : startsWithL "SELECT".data (stripUpper q) = false)
    (heng : eng q = ExecOutcome.ok d fo) :
    (call_tool eng "execute_sql" args).1 =
      Except.ok [TextContent.mk "Query executed successfully."] := by
  simp [call_tool, hq, hne, heng, hshow, hsel]

/-- Witness for the amended C9: a DDL statement over an engine whose
fetch would raise still yields the fixed acknowledgement. -/
theorem call_tool_other_branch_witness :
    (call_tool engFetchErr "execute_sql" [("query", "CREATE TABLE t (x int)")]).1 =
      Except.ok [TextContent.mk "Query executed successfully."] :=
  call_tool_other_branch engFetchErr [("query", "CREATE TABLE t (x int)")]
    "CREATE TABLE t (x int)" [] (FetchOutcome.err (TrinoError.query "no rows available"))
    rfl (by decide) (by decide) (by decide) rfl

/-- C6: for the address `trino://orders/data` and any catalog/schema,
`read_resource` submits exactly `SELECT * FROM <catalog>.<schema>.orders
LIMIT 100`, and on engine success renders the comma-joined header line
followed by one comma-joined line per row, newline-separated. -/
theorem read_resource_orders_sample (catalog schema : String) (eng : Engine)
    (cols : List String) (rows : List (List PyVal))
    (heng : eng ("SELECT * FROM " ++ catalog ++ "." ++ schema ++ ".orders LIMIT 100") =
      ExecOutcome.ok cols (FetchOutcome.ok rows)) :
    (read_resource eng catalog schema "trino://orders/data").2.executed =
      ["SELECT * FROM " ++ catalog ++ "." ++ schema ++ ".orders LIMIT 100"] ∧
    (read_resource eng catalog schema "trino://orders/data").1 =
      Except.ok (String.intercalate "\n"
        (String.intercalate "," cols
          :: rows.map (fun row => String.intercalate "," (row.map PyVal.str)))) := by
  have htab : String.mk ((pySplit '/' ("trino://orders/data".data.drop 8)).headD []) =
      "orders" := by decide
  have hq : "SELECT * FROM " ++ catalog ++ "." ++ schema ++ "." ++
      String.mk ((pySplit '/' ("trino://orders/data".data.drop 8)).headD []) ++ " LIMIT 100" =
      "SELECT * FROM " ++ catalog ++ "." ++ schema ++ ".orders LIMIT 100" := by
    rw [htab, str_fuse ("SELECT * FROM " ++ catalog ++ "." ++ schema) "." "orders" ".orders"
      (by decide)]
    exact str_fuse _ ".orders" " LIMIT 100" ".orders LIMIT 100" (by decide)
  have hscheme : startsWithL "trino://".data "trino://orders/data".data = true := by decide
  have H : read_resource eng catalog schema "trino://orders/data" =
      (Except.ok (String.intercalate "\n"
        (String.intercalate "," cols
          :: rows.map (fun row => String.intercalate "," (row.map PyVal.str)))),
       { opens := 1, closes := 1,
         executed := ["SELECT * FROM " ++ catalog ++ "." ++ schema ++ ".orders LIMIT 100"] }) := by
    simp only [read_resource, hscheme, Bool.not_true]
    rw [if_neg Bool.false_ne_true, hq, heng]
  exact ⟨by rw [H], by rw [H]⟩

/-- Witness for C6 at catalog `hive`, schema `sales`, one data row. -/
theorem read_resource_orders_sample_witness :
    (read_resource engOrders "hive" "sales" "trino://orders/data").2.executed =
      ["SELECT * FROM " ++ "hive" ++ "." ++ "sales" ++ ".orders LIMIT 100"] ∧
    (read_resource engOrders "hive" "sales" "trino://orders/data").1 =
      Except.ok "id,name\n1,alice" := by
  have h := read_resource_orders_sample "hive" "sales" engOrders ["id", "name"]
    [[PyVal.vInt 1, PyVal.vStr "alice"]] rfl
  exact ⟨h.1, h.2.trans (congrArg Except.ok (by decide))⟩

/-- C10: `read_resource` validates nothing about the table name beyond
the scheme: for every address `trino://<rest>` the submitted table is the
part of `<rest>` before the first `/` (everything after it ignored), and
for `trino://` or `trino:///data` the table is empty and the statement
`SELECT * FROM <catalog>.<schema>. LIMIT 100` is submitted to the
engine. -/
theorem read_resource_no_table_validation (eng : Engine) (catalog schema rest : String) :
    (read_resource eng catalog schema ("trino://" ++ rest)).2.executed =
      ["SELECT * FROM " ++ catalog ++ "." ++ schema ++ "." ++ firstSegment rest ++
        " LIMIT 100"] ∧
    (read_resource eng catalog schema "trino://").2.executed =
      ["SELECT * FROM " ++ catalog ++ "." ++ schema ++ ". LIMIT 100"] ∧
    (read_resource eng catalog schema "trino:///data").2.executed =
      ["SELECT * FROM " ++ catalog ++ "." ++ schema ++ ". LIMIT 100"] := by
  refine ⟨?_, ?_, ?_⟩
  · have h : startsWithL "trino://".data ("trino://" ++ rest).data = true := by
      unfold startsWithL
      rw [String.data_append]
      exact List.isPrefixOf_iff_prefix.mpr ( List.prefix_append _ _)
    rw [read_resource_executed_of_scheme eng catalog schema _ h]
    rw [show ("trino://" ++ rest).data = "trino://".data ++ rest.data from
      String.data_append _ _]
    rw [ List.drop_left' (by decide), pySplit_headD]
    rfl
  · have h : startsWithL "trino://".data ("trino://" : String).data = true := by decide
    rw [read_resource_executed_of_scheme eng catalog schema _ h]
    rw [show String.mk ((pySplit '/' (("trino://" : String).data.drop 8)).headD []) =
      "" from by decide]
    rw [String.append_empty]
    rw [str_fuse ("SELECT * FROM " ++ catalog ++ "." ++ schema) "." " LIMIT 100"
      ". LIMIT 100" (by decide)]
  · have h : startsWithL "trino://".data ("trino:///data" : String).data = true := by decide
    rw [read_resource_executed_of_scheme eng catalog schema _ h]
    rw [show String.mk ((pySplit '/' (("trino:///data" : String).data.drop 8)).headD []) =
      "" from by decide]
    rw [String.append_empty]
    rw [str_fuse ("SELECT * FROM " ++ catalog ++ "." ++ schema) "." " LIMIT 100"
      ". LIMIT 100" (by decide)]
